import Mathlib

/-!
Shallow embedding of the order-management Flask application (`src/app.py`)
and verification of its specification claims.

Modelling conventions:
  * Timestamps are integers (seconds).  `now` is the value of
    `datetime.utcnow()` at the moment a request is handled.
  * The database state is a record of the three tables plus the
    autoincrement counter for `orders.order_id`.
  * JSON request bodies are typed: the POST body carries the three
    required keys plus the optional `created_at` column key (each as
    `Option`, `none` meaning the key is absent), the PUT body is the
    insertion-ordered list of its key/value entries, since the handler
    iterates `data.items()` and returns on the first offending entry.
  * Each handler returns its result (an inductive mirroring the distinct
    `return` statements, mapped to HTTP status codes by a separate
    function) together with the committed database state.  A handler
    commits only when it reaches `db.session.commit()`; on every early
    return the database is unchanged (Flask-SQLAlchemy rolls back
    uncommitted sessions at request teardown).
-/

/-- Row of the `customers` table (`class Customer`, app.py lines 19-25). -/
structure Customer where
  customer_id : Int
  first_name : String
  last_name : String
  email : String
  created_at : Int
deriving DecidableEq, Repr

/-- The column/attribute names the `Customer` model defines.  Note that
`name` is not among them: the model has `first_name` and `last_name`. -/
def customerColumns : List String :=
  ["customer_id", "first_name", "last_name", "email", "created_at"]

/-- Row of the `products` table (`class Product`, app.py lines 27-32).
The DECIMAL price is modelled in cents. -/
structure Product where
  product_id : Int
  name : String
  price : Int
  created_at : Int
deriving DecidableEq, Repr

/-- Row of the `orders` table (`class Order`, app.py lines 34-45). -/
structure Order where
  order_id : Int
  customer_id : Int
  product_id : Int
  quantity : Int
  created_at : Int
deriving DecidableEq, Repr

/-- The database state: the three tables, plus the autoincrement counter
that yields the next `orders.order_id`. -/
structure DB where
  customers : List Customer
  products : List Product
  orders : List Order
  nextOrderId : Int
deriving DecidableEq, Repr

/-! ## POST /orders (`create_order`, app.py lines 48-71) -/

/-- The JSON body of a POST /orders request.  A field is `none` when the
key is absent from the body.  Besides the three required keys, the body
may carry `created_at`, which `Order(**data)` forwards to the `Order`
constructor, overriding the server default of the column. -/
structure PostBody where
  customer_id : Option Int
  product_id : Option Int
  quantity : Option Int
  created_at : Option Int
deriving DecidableEq, Repr

/-- The distinct responses of the POST branch of `create_order`. -/
inductive PostResult where
  /-- The missing-or-invalid-data JSON error, 400 (line 55). -/
  | missingOrInvalid
  /-- The order-already-placed duplicate message, 400 (line 65). -/
  | duplicateOrder
  /-- The order-created-successfully message, 201 (line 71). -/
  | created
deriving DecidableEq, Repr

/-- HTTP status code of each POST response. -/
def postStatus : PostResult → Nat
  | .missingOrInvalid => 400
  | .duplicateOrder => 400
  | .created => 201

/-- The filter of the duplicate-submission query (app.py lines 58-62):
same customer, same product, `created_at` strictly later than
`threshold = now - 60` seconds. -/
def isDuplicateOf (cid pid threshold : Int) (o : Order) : Bool :=
  o.customer_id == cid && o.product_id == pid && decide (threshold < o.created_at)

/-- The POST branch of `create_order` (app.py lines 50-71).
`body = none` models a request without a JSON object body.  Validation
only checks that the three required keys are present (line 54); any
`created_at` key also present is forwarded to the `Order` constructor
(line 67), otherwise the stored timestamp is the current time (the
server default of the column). -/
def create_order (db : DB) (now : Int) (body : Option PostBody) :
    PostResult × DB :=
  match body with
  | some ⟨some cid, some pid, some q, createdAt⟩ =>
    let time_threshold := now - 60
    match db.orders.find? (isDuplicateOf cid pid time_threshold) with
    | some _ => (.duplicateOrder, db)
    | none =>
      let new_order : Order :=
        { order_id := db.nextOrderId
          customer_id := cid
          product_id := pid
          quantity := q
          created_at := createdAt.getD now }
      (.created,
        { db with
            orders := db.orders ++ [new_order]
            nextOrderId := db.nextOrderId + 1 })
  | _ => (.missingOrInvalid, db)

/-! ## GET /orders/{id} (`get_order_by_id`, GET branch, app.py lines 96-109) -/

/-- Resolution of the query `Order.query.get_or_404(order_id)` on the
list of rows: `none` models the 404 abort.  Also the lookup underlying
the serialization of the GET branch (lines 100-109). -/
def get_order_by_id (db : DB) (oid : Int) : Option Order :=
  db.orders.find? (fun o => o.order_id == oid)

/-! ## PUT /orders/{id} (`get_order_by_id`, PUT branch, app.py lines 111-141) -/

/-- One key/value entry of the PUT body, typed by key.  The first three
constructors are the keys the loop of the handler dispatches on
(`customer_name`, `product_name`, `quantity`); `other k` is any other
key `k`. -/
inductive PutEntry where
  | customerName (v : String)
  | productName (v : String)
  | quantity (v : Int)
  | other (key : String)
deriving DecidableEq, Repr

/-- The JSON key of a PUT body entry, as tested by the
`set(data.keys()).issubset(allowed_attributes)` check (line 115). -/
def entryKey : PutEntry → String
  | .customerName _ => "customer_name"
  | .productName _ => "product_name"
  | .quantity _ => "quantity"
  | .other k => k

/-- The list `allowed_attributes` of the PUT branch (line 113). -/
def putAllowedAttributes : List String :=
  ["customer_name", "product_name", "quantity"]

/-- The distinct responses of the PUT branch. -/
inductive PutResult where
  /-- 404 aborted by `get_or_404` (line 98). -/
  | orderNotFound
  /-- The invalid-or-missing-data JSON error, 400 (line 116). -/
  | invalidOrMissing
  /-- The customer-not-found message, 404 (line 122). -/
  | customerNotFound
  /-- The product-not-found message, 404 (line 129). -/
  | productNotFound
  /-- The you-cannot-change-this-attribute error naming the offending
  key, 403 (line 137). -/
  | forbiddenField (key : String)
  /-- 500: an unhandled exception escaped the handler. -/
  | internalError
  /-- The order-updated-successfully message, 200 (line 141). -/
  | updated
deriving DecidableEq, Repr

/-- HTTP status code of each PUT response. -/
def putStatus : PutResult → Nat
  | .orderNotFound => 404
  | .invalidOrMissing => 400
  | .customerNotFound => 404
  | .productNotFound => 404
  | .forbiddenField _ => 403
  | .internalError => 500
  | .updated => 200

/-- The query `Customer.query.filter_by(name=value)` (line 120).  The
`Customer` model defines no `name` attribute (see `customerColumns`),
so SQLAlchemy raises `InvalidRequestError` while building the query,
for every value; the error escapes the handler.  If `name` were a
column the query would return the first matching row. -/
def customerFilterByName (_db : DB) (_v : String) :
    Except String (Option Customer) :=
  if "name" ∈ customerColumns then
    .ok none
  else
    .error ("InvalidRequestError: Entity namespace for customers has no property name")

/-- The query `Product.query.filter_by(name=value).first()` (line 127). -/
def productFilterByName (db : DB) (v : String) : Option Product :=
  db.products.find? (fun p => p.name == v)

/-- The `for key, value in data.items()` loop of the PUT branch (lines
118-137), acting on the in-session draft of the fetched order.  Returns
`(.updated, draft)` when the loop completes, otherwise the early
response together with the (discarded) draft. -/
def applyPutEntries (db : DB) (draft : Order) :
    List PutEntry → PutResult × Order
  | [] => (.updated, draft)
  | e :: rest =>
    match e with
    | .customerName v =>
      match customerFilterByName db v with
      | .error _ => (.internalError, draft)
      | .ok none => (.customerNotFound, draft)
      | .ok (some c) =>
        let draft' :=
          if c.customer_id ≠ draft.customer_id then
            { draft with customer_id := c.customer_id }
          else draft
        applyPutEntries db draft' rest
    | .productName v =>
      match productFilterByName db v with
      | none => (.productNotFound, draft)
      | some p =>
        let draft' :=
          if p.product_id ≠ draft.product_id then
            { draft with product_id := p.product_id }
          else draft
        applyPutEntries db draft' rest
    | .quantity n => applyPutEntries db { draft with quantity := n } rest
    | .other _ => (.forbiddenField (entryKey e), draft)

/-- The PUT branch of `get_order_by_id` (lines 111-141).  `body = none`
models `data is None`.  The whitelist check (line 115) precedes the
loop; `db.session.commit()` (line 139) runs only when the loop
completes, replacing the fetched row by the mutated draft. -/
def update_order (db : DB) (oid : Int) (body : Option (List PutEntry)) :
    PutResult × DB :=
  match get_order_by_id db oid with
  | none => (.orderNotFound, db)
  | some order =>
    match body with
    | none => (.invalidOrMissing, db)
    | some entries =>
      if entries.all (fun e => putAllowedAttributes.contains (entryKey e)) then
        match applyPutEntries db order entries with
        | (.updated, draft) =>
          (.updated,
            { db with
                orders := db.orders.map
                  (fun o => if o.order_id == oid then draft else o) })
        | (r, _) => (r, db)
      else (.invalidOrMissing, db)

/-! ## GET /customers/number-of-products (`get_customers_by_products`,
app.py lines 156-178) -/

/-- The per-customer count of the inner join of `customers` with
`orders` on `customer_id`: the number of join rows in the group of
the customer, i.e. how many orders the customer has. -/
def joinOrderCount (db : DB) (c : Customer) : Nat :=
  (db.orders.filter (fun o => o.customer_id == c.customer_id)).length

/-- The route GET /customers/number-of-products (lines 158-175): inner-join
customers to orders, group by `Customer.customer_id`, count rows per
group.  A customer with no orders contributes no join row, hence no
group and no entry.  Each entry is `(customer_id, total_products)`. -/
def get_customers_by_products (db : DB) : List (Int × Nat) :=
  db.customers.filterMap (fun c =>
    let n := joinOrderCount db c
    if n = 0 then none else some (c.customer_id, n))

/-! ## GET /customers/{id}/purchase-history (`get_purchase_history`,
app.py lines 181-205) -/

/-- One serialized entry of the purchase history (lines 191-200). -/
structure HistoryEntry where
  order_id : Int
  product_id : Int
  quantity : Int
  created_at : Int
  product_name : String
deriving DecidableEq, Repr

/-- The distinct responses of `get_purchase_history`. -/
inductive HistResult where
  /-- The customer-not-found message, 404 (line 187). -/
  | customerNotFound
  /-- 500 from the `except` branch (line 205), e.g. when
  `order.product` is `None` for a dangling `product_id`. -/
  | internalError
  /-- 200 with the serialized history (line 202). -/
  | ok (history : List HistoryEntry)
deriving DecidableEq, Repr

/-- The list comprehension of lines 191-200, serializing each order
with `order.product.name` resolved through the relationship (the
product row carrying the `product_id` of the order).  `none` models
the exception raised when the `product_id` of some order matches no product
(`order.product` is `None`, so `.name` raises). -/
def serializeHistory (db : DB) : List Order → Option (List HistoryEntry)
  | [] => some []
  | o :: rest =>
    match db.products.find? (fun p => p.product_id == o.product_id) with
    | none => none
    | some p =>
      (serializeHistory db rest).map
        (fun hs =>
          ({ order_id := o.order_id
             product_id := o.product_id
             quantity := o.quantity
             created_at := o.created_at
             product_name := p.name } : HistoryEntry) :: hs)

/-- The route GET /customers/id/purchase-history (lines 183-205):
`Customer.query.get(customer_id)`, 404 if none; otherwise all orders
with this `customer_id`, serialized by `serializeHistory`.  A raised
exception is caught by the `except` branch and answered with 500. -/
def get_purchase_history (db : DB) (cid : Int) : HistResult :=
  match db.customers.find? (fun c => c.customer_id == cid) with
  | none => .customerNotFound
  | some _ =>
    match serializeHistory db (db.orders.filter (fun o => o.customer_id == cid)) with
    | none => .internalError
    | some history => .ok history

/-! ## Sample database used by witnesses and counterexamples -/

/-- A sample customer row. -/
def sampleCustomer : Customer :=
  { customer_id := 1, first_name := "Ada", last_name := "Lovelace"
    email := "ada@example.com", created_at := 0 }

/-- A sample product row. -/
def sampleProduct : Product :=
  { product_id := 1, name := "Widget", price := 999, created_at := 0 }

/-- A sample order row: customer 1 ordered product 1 at time 100. -/
def sampleOrder : Order :=
  { order_id := 1, customer_id := 1, product_id := 1, quantity := 2
    created_at := 100 }

/-- A sample database with one customer, one product and one order. -/
def sampleDB : DB :=
  { customers := [sampleCustomer], products := [sampleProduct]
    orders := [sampleOrder], nextOrderId := 2 }

/-! ## Shared lemmas -/

/-- If no order of `db` matches the duplicate filter, the duplicate
query returns no row. -/
theorem find?_duplicate_eq_none (db : DB) (now cid pid : Int)
    (hnodup : ∀ o ∈ db.orders,
      ¬(o.customer_id = cid ∧ o.product_id = pid ∧ now - 60 < o.created_at)) :
    db.orders.find? (isDuplicateOf cid pid (now - 60)) = none := by
  rw [List.find?_eq_none]
  intro o ho
  simp only [isDuplicateOf, Bool.and_eq_true, beq_iff_eq, decide_eq_true_eq]
  intro h
  exact hnodup o ho ⟨h.1.1, h.1.2, h.2⟩

/-! ## Claims -/

/-- C5: a POST /orders request whose body is absent or lacks one of the
required fields `customer_id`, `product_id`, `quantity` is rejected
with status 400 and the "Missing or invalid data" message, leaving the
orders table unchanged (zero rows inserted). -/
theorem post_missing_required_field_rejected (db : DB) (now : Int)
    (body : Option PostBody)
    (h : body = none ∨ ∃ d, body = some d ∧
      (d.customer_id = none ∨ d.product_id = none ∨ d.quantity = none)) :
    create_order db now body = (.missingOrInvalid, db) ∧
    postStatus (create_order db now body).1 = 400 := by
  rcases h with rfl | ⟨⟨a, b, c, e⟩, rfl, hd⟩
  · exact ⟨rfl, rfl⟩
  · rcases hd with h1 | h1 | h1
    · obtain rfl : a = none := h1
      cases b <;> cases c <;> exact ⟨rfl, rfl⟩
    · obtain rfl : b = none := h1
      cases a <;> cases c <;> exact ⟨rfl, rfl⟩
    · obtain rfl : c = none := h1
      cases a <;> cases b <;> exact ⟨rfl, rfl⟩

/-- Witness for C5: a body lacking `quantity` is rejected with 400 and
no insertion. -/
theorem post_missing_required_field_rejected_witness :
    create_order sampleDB 1000 (some ⟨some 1, some 1, none, none⟩) =
      (.missingOrInvalid, sampleDB) ∧
    postStatus (create_order sampleDB 1000 (some ⟨some 1, some 1, none, none⟩)).1 = 400 :=
  post_missing_required_field_rejected sampleDB 1000 _
    (Or.inr ⟨_, rfl, Or.inr (Or.inr rfl)⟩)

/-- C1: on a POST /orders body carrying the three required fields, if
some existing order has the same customer and product and was created
within the preceding 60 seconds of submission time (`created_at` later
than `now - 60`), the request is answered 400 with the duplicate
message and the database is unchanged; otherwise a new order row is
appended, carrying the submitted values, and 201 is returned. -/
theorem post_duplicate_window_behavior (db : DB) (now : Int) (d : PostBody)
    (cid pid q : Int) (hc : d.customer_id = some cid)
    (hp : d.product_id = some pid) (hq : d.quantity = some q) :
    ((∃ o ∈ db.orders,
        o.customer_id = cid ∧ o.product_id = pid ∧ now - 60 < o.created_at) →
      create_order db now (some d) = (.duplicateOrder, db) ∧
      postStatus PostResult.duplicateOrder = 400) ∧
    ((∀ o ∈ db.orders,
        ¬(o.customer_id = cid ∧ o.product_id = pid ∧ now - 60 < o.created_at)) →
      ∃ newOrd,
        create_order db now (some d) =
          (.created,
            { db with orders := db.orders ++ [newOrd]
                      nextOrderId := db.nextOrderId + 1 }) ∧
        postStatus PostResult.created = 201 ∧
        newOrd.customer_id = cid ∧ newOrd.product_id = pid ∧
        newOrd.quantity = q) := by
  obtain ⟨a, b, c, e⟩ := d
  obtain rfl : a = some cid := hc
  obtain rfl : b = some pid := hp
  obtain rfl : c = some q := hq
  constructor
  · rintro ⟨o, ho, h1, h2, h3⟩
    have hsome : (db.orders.find? (isDuplicateOf cid pid (now - 60))).isSome := by
      rw [List.find?_isSome]
      exact ⟨o, ho, by simp [isDuplicateOf, h1, h2, h3]⟩
    obtain ⟨x, hx⟩ := Option.isSome_iff_exists.mp hsome
    refine ⟨?_, rfl⟩
    simp only [create_order]
    rw [hx]
  · intro hno
    refine ⟨⟨db.nextOrderId, cid, pid, q, e.getD now⟩, ?_, rfl, rfl, rfl, rfl⟩
    simp only [create_order]
    rw [find?_duplicate_eq_none db now cid pid hno]

/-- Witness for C1: a second (customer 1, product 1) submission at time
130, 30 seconds after the sample order, is rejected with the duplicate
message and the database is unchanged. -/
theorem post_duplicate_window_behavior_witness :
    create_order sampleDB 130 (some ⟨some 1, some 1, some 3, none⟩) =
      (.duplicateOrder, sampleDB) ∧
    postStatus PostResult.duplicateOrder = 400 :=
  (post_duplicate_window_behavior sampleDB 130 _ 1 1 3 rfl rfl rfl).1
    ⟨sampleOrder, by decide, by decide, by decide, by decide⟩

/-- C10: POST validation only requires the three keys to be present, so
a body that additionally carries `created_at` passes validation and the
supplied value is forwarded to the `Order` constructor: the stored
stored timestamp of the row is the client-supplied `t`, not the current
server time; choosing `t` at least 60 seconds in the past places the row
outside the duplicate window of a request at time `now`. -/
theorem post_forwards_client_created_at (db : DB) (now t cid pid q : Int)
    (hnodup : ∀ o ∈ db.orders,
      ¬(o.customer_id = cid ∧ o.product_id = pid ∧ now - 60 < o.created_at)) :
    create_order db now (some ⟨some cid, some pid, some q, some t⟩) =
      (.created,
        { db with
            orders := db.orders ++
              [{ order_id := db.nextOrderId, customer_id := cid
                 product_id := pid, quantity := q, created_at := t }]
            nextOrderId := db.nextOrderId + 1 }) ∧
    (t ≤ now - 60 →
      isDuplicateOf cid pid (now - 60)
        { order_id := db.nextOrderId, customer_id := cid
          product_id := pid, quantity := q, created_at := t } = false) := by
  constructor
  · simp only [create_order]
    rw [find?_duplicate_eq_none db now cid pid hnodup]
    rfl
  · intro ht
    simp only [isDuplicateOf, Bool.and_eq_false_iff, decide_eq_false_iff_not,
      not_lt]
    exact Or.inr ht

/-- Witness for C10: at time 1000, a body with `created_at = 5` is
accepted and the stored timestamp of the row is 5, which lies outside the
duplicate window. -/
theorem post_forwards_client_created_at_witness :
    create_order sampleDB 1000 (some ⟨some 1, some 1, some 4, some 5⟩) =
      (.created,
        { sampleDB with
            orders := sampleDB.orders ++
              [{ order_id := sampleDB.nextOrderId, customer_id := 1
                 product_id := 1, quantity := 4, created_at := 5 }]
            nextOrderId := sampleDB.nextOrderId + 1 }) ∧
    ((5 : Int) ≤ 1000 - 60 →
      isDuplicateOf 1 1 (1000 - 60)
        { order_id := sampleDB.nextOrderId, customer_id := 1
          product_id := 1, quantity := 4, created_at := 5 } = false) :=
  post_forwards_client_created_at sampleDB 1000 5 1 1 4 (by decide)

/-- C6: a POST /orders with the three required fields that is not a
duplicate within the 60-second window answers 201, and a subsequent
GET /orders/{id} for the created order returns an order carrying the
submitted `customer_id`, `product_id` and `quantity`. -/
theorem post_then_get_returns_submitted (db : DB) (now : Int) (d : PostBody)
    (cid pid q : Int) (hc : d.customer_id = some cid)
    (hp : d.product_id = some pid) (hq : d.quantity = some q)
    (hfresh : ∀ o ∈ db.orders, o.order_id ≠ db.nextOrderId)
    (hnodup : ∀ o ∈ db.orders,
      ¬(o.customer_id = cid ∧ o.product_id = pid ∧ now - 60 < o.created_at)) :
    postStatus (create_order db now (some d)).1 = 201 ∧
    ∃ newOrd,
      get_order_by_id (create_order db now (some d)).2 db.nextOrderId =
        some newOrd ∧
      newOrd.customer_id = cid ∧ newOrd.product_id = pid ∧
      newOrd.quantity = q := by
  obtain ⟨a, b, c, e⟩ := d
  obtain rfl : a = some cid := hc
  obtain rfl : b = some pid := hp
  obtain rfl : c = some q := hq
  have hco : create_order db now (some ⟨some cid, some pid, some q, e⟩) =
      (.created,
        { db with
            orders := db.orders ++
              [⟨db.nextOrderId, cid, pid, q, e.getD now⟩]
            nextOrderId := db.nextOrderId + 1 }) := by
    simp only [create_order]
    rw [find?_duplicate_eq_none db now cid pid hnodup]
  refine ⟨by rw [hco]; rfl, ⟨db.nextOrderId, cid, pid, q, e.getD now⟩, ?_, rfl, rfl, rfl⟩

  rw [hco]
  simp only [get_order_by_id]
  rw [List.find?_append]
  have h1 : db.orders.find? (fun o => o.order_id == db.nextOrderId) = none := by
    rw [List.find?_eq_none]
    intro o ho
    simpa using hfresh o ho
  rw [h1, Option.none_or]
  exact List.find?_cons_of_pos _ (by simp)

/-- Witness for C6: creating an order (customer 1, product 1,
quantity 5) at time 1000 answers 201 and reading back order 2 yields
those values. -/
theorem post_then_get_returns_submitted_witness :
    postStatus (create_order sampleDB 1000 (some ⟨some 1, some 1, some 5, none⟩)).1 = 201 ∧
    ∃ newOrd,
      get_order_by_id
        (create_order sampleDB 1000 (some ⟨some 1, some 1, some 5, none⟩)).2
        sampleDB.nextOrderId = some newOrd ∧
      newOrd.customer_id = 1 ∧ newOrd.product_id = 1 ∧ newOrd.quantity = 5 :=
  post_then_get_returns_submitted sampleDB 1000 _ 1 1 5 rfl rfl rfl
    (by decide) (by decide)

/-- The customer-name lookup fails identically for every submitted
value, since `name` is not a column of the `Customer` model. -/
theorem customerFilterByName_error (db : DB) (v : String) :
    customerFilterByName db v =
      .error ("InvalidRequestError: Entity namespace for customers has no property name") := by
  rfl

/-- If the PUT body contains a `customer_name` entry, the update loop
never completes: its result is never the success outcome. -/
theorem applyPutEntries_ne_updated_of_customerName (db : DB) :
    ∀ (entries : List PutEntry) (draft : Order) (v : String),
    PutEntry.customerName v ∈ entries →
    (applyPutEntries db draft entries).1 ≠ PutResult.updated := by
  intro entries
  induction entries with
  | nil => intro draft v h; simp at h
  | cons e rest ih =>
    intro draft v hmem
    cases e with
    | customerName w =>
      simp [applyPutEntries, customerFilterByName_error]
    | productName w =>
      have hm : PutEntry.customerName v ∈ rest := by
        rcases List.mem_cons.mp hmem with heq | h
        · exact absurd heq (by simp)
        · exact h
      simp only [applyPutEntries]
      cases hpf : productFilterByName db w with
      | none => simp
      | some p => exact ih _ v hm
    | quantity n =>
      have hm : PutEntry.customerName v ∈ rest := by
        rcases List.mem_cons.mp hmem with heq | h
        · exact absurd heq (by simp)
        · exact h
      exact ih _ v hm
    | other k =>
      simp [applyPutEntries]

/-- On an early (non-success) loop outcome, the PUT handler commits
nothing: the database is returned unchanged. -/
theorem update_order_db_unchanged_of_ne_updated (db : DB) (oid : Int)
    (entries : List PutEntry)
    (hne : ∀ draft : Order,
      (applyPutEntries db draft entries).1 ≠ PutResult.updated) :
    (update_order db oid (some entries)).1 ≠ PutResult.updated ∧
    (update_order db oid (some entries)).2 = db := by
  cases hord : get_order_by_id db oid with
  | none =>
    simp only [update_order, hord]
    simp
  | some o =>
    simp only [update_order, hord]
    by_cases hall : entries.all
        (fun e => putAllowedAttributes.contains (entryKey e)) = true
    · rw [if_pos hall]
      have hne' := hne o
      rcases happ : applyPutEntries db o entries with ⟨r, d⟩
      rw [happ] at hne'
      cases r with
      | updated => exact absurd rfl hne'
      | orderNotFound => exact ⟨by simp, rfl⟩
      | invalidOrMissing => exact ⟨by simp, rfl⟩
      | customerNotFound => exact ⟨by simp, rfl⟩
      | productNotFound => exact ⟨by simp, rfl⟩
      | forbiddenField k => exact ⟨by simp, rfl⟩
      | internalError => exact ⟨by simp, rfl⟩
    · rw [if_neg hall]
      exact ⟨by simp, rfl⟩

/-- C9: the `Customer` model defines no `name` attribute, so the
`customer_name` lookup of the PUT branch raises for every submitted
value, and a PUT whose body contains the `customer_name` key never
completes a successful update: the success response is never returned
and the database is never modified. -/
theorem put_customer_name_branch_always_fails (db : DB) (oid : Int)
    (entries : List PutEntry) (v : String)
    (hmem : PutEntry.customerName v ∈ entries) :
    "name" ∉ customerColumns ∧
    (∀ w, customerFilterByName db w =
      .error ("InvalidRequestError: Entity namespace for customers has no property name")) ∧
    (update_order db oid (some entries)).1 ≠ PutResult.updated ∧
    (update_order db oid (some entries)).2 = db := by
  refine ⟨by decide, fun w => customerFilterByName_error db w, ?_, ?_⟩
  · exact (update_order_db_unchanged_of_ne_updated db oid entries
      (fun draft => applyPutEntries_ne_updated_of_customerName db entries draft v hmem)).1
  · exact (update_order_db_unchanged_of_ne_updated db oid entries
      (fun draft => applyPutEntries_ne_updated_of_customerName db entries draft v hmem)).2

/-- Witness for C9: a PUT carrying a `customer_name` entry on the
sample order is not answered with success and leaves the database
unchanged. -/
theorem put_customer_name_branch_always_fails_witness :
    (update_order sampleDB 1 (some [PutEntry.customerName ("Ada")])).1 ≠
      PutResult.updated ∧
    (update_order sampleDB 1 (some [PutEntry.customerName ("Ada")])).2 =
      sampleDB :=
  ⟨(put_customer_name_branch_always_fails sampleDB 1 _ ("Ada")
      (List.mem_singleton.mpr rfl)).2.2.1,
   (put_customer_name_branch_always_fails sampleDB 1 _ ("Ada")
      (List.mem_singleton.mpr rfl)).2.2.2⟩

/-- Counterexample for C2: a PUT on the existing sample order whose
body carries the out-of-whitelist key created_at is answered with the
invalid-or-missing-data error, status 400 — not with the 403
forbidden-field error naming the key that the claim describes.  The
whitelist check of line 115 precedes the loop, so the 403 branch of
line 137 is unreachable. -/
theorem put_extra_key_rejected_cex :
    update_order sampleDB 1 (some [PutEntry.other ("created_at")]) =
      (PutResult.invalidOrMissing, sampleDB) ∧
    putStatus (update_order sampleDB 1 (some [PutEntry.other ("created_at")])).1 = 400 ∧
    (update_order sampleDB 1 (some [PutEntry.other ("created_at")])).1 ≠
      PutResult.forbiddenField ("created_at") := by
  refine ⟨rfl, rfl, by decide⟩

/-- C2 (amended): a PUT on an existing order whose body contains at
least one key outside the whitelist is rejected by the pre-loop subset
check with the invalid-or-missing-data error, status 400 (not 403, and
without naming the key), and the order is not modified. -/
theorem put_extra_key_rejected_400 (db : DB) (oid : Int)
    (entries : List PutEntry)
    (hord : ∃ o ∈ db.orders, o.order_id = oid)
    (hbad : ∃ e ∈ entries, entryKey e ∉ putAllowedAttributes) :
    update_order db oid (some entries) = (PutResult.invalidOrMissing, db) ∧
    putStatus PutResult.invalidOrMissing = 400 := by
  obtain ⟨o, ho, hoid⟩ := hord
  have hsome : (get_order_by_id db oid).isSome := by
    rw [get_order_by_id, List.find?_isSome]
    exact ⟨o, ho, by simp [hoid]⟩
  obtain ⟨o2, ho2⟩ := Option.isSome_iff_exists.mp hsome
  have hall : ¬(entries.all
      (fun e => putAllowedAttributes.contains (entryKey e)) = true) := by
    intro hTrue
    obtain ⟨e, he, hk⟩ := hbad
    have := List.all_eq_true.mp hTrue e he
    exact hk (by simpa using this)
  simp only [update_order, ho2]
  rw [if_neg hall]
  exact ⟨rfl, rfl⟩

/-- Witness for the amended C2: a body with the unknown key note on the
sample order is answered 400 invalid-or-missing-data, unchanged
database. -/
theorem put_extra_key_rejected_400_witness :
    update_order sampleDB 1 (some [PutEntry.other ("note")]) =
      (PutResult.invalidOrMissing, sampleDB) ∧
    putStatus PutResult.invalidOrMissing = 400 :=
  put_extra_key_rejected_400 sampleDB 1 _
    ⟨sampleOrder, by decide, by decide⟩
    ⟨PutEntry.other ("note"), List.mem_singleton.mpr rfl, by decide⟩

/-- After the commit replaces the fetched row by a draft that keeps the
row identifier, looking the identifier up again returns the draft. -/
theorem find?_map_commit (l : List Order) (oid : Int) (ord d : Order)
    (h : l.find? (fun o => o.order_id == oid) = some ord)
    (hd : d.order_id = ord.order_id) :
    (l.map (fun o => if o.order_id == oid then d else o)).find?
      (fun o => o.order_id == oid) = some d := by
  induction l with
  | nil => simp at h
  | cons a l ih =>
    by_cases ha : (a.order_id == oid) = true
    · rw [List.find?_cons_of_pos (p := fun o => o.order_id == oid) l ha] at h
      obtain rfl : a = ord := Option.some.inj h
      simp only [List.map_cons]
      rw [if_pos ha]
      exact List.find?_cons_of_pos _ (by rw [hd]; exact ha)
    · rw [List.find?_cons_of_neg (p := fun o => o.order_id == oid) l ha] at h
      simp only [List.map_cons]
      rw [if_neg ha]
      have hstep := List.find?_cons_of_neg (p := fun o => o.order_id == oid)
        (List.map (fun o => if (o.order_id == oid) = true then d else o) l) ha
      rw [hstep]
      exact ih h

/-- Counterexample for C3: a PUT body containing product_name equal to
the name of an existing product (Widget) and omitting quantity, but
also carrying customer_name, does not succeed: the customer-name
lookup raises, the request is answered 500 and nothing is committed —
against the claim, which promises success for every such body. -/
theorem put_valid_product_name_cex :
    update_order sampleDB 1
        (some [PutEntry.customerName ("Ada"), PutEntry.productName ("Widget")]) =
      (PutResult.internalError, sampleDB) ∧
    putStatus PutResult.internalError = 500 ∧
    (update_order sampleDB 1
        (some [PutEntry.customerName ("Ada"), PutEntry.productName ("Widget")])).1 ≠
      PutResult.updated :=
  ⟨rfl, rfl, by decide⟩

/-- C3 (amended): a PUT on an existing order whose body consists
exactly of product_name naming an existing product (hence omitting
quantity and not touching the failing customer_name branch) succeeds
with 200; afterwards the product identifier of the order equals the
identifier of the resolved product while its quantity and customer
identifier are unchanged. -/
theorem put_product_name_only_updates_product (db : DB) (oid : Int)
    (v : String) (ord : Order) (p : Product)
    (hord : get_order_by_id db oid = some ord)
    (hp : productFilterByName db v = some p) :
    ∃ ord2,
      update_order db oid (some [PutEntry.productName v]) =
        (PutResult.updated,
          { db with orders :=
              db.orders.map (fun o => if o.order_id == oid then ord2 else o) }) ∧
      putStatus PutResult.updated = 200 ∧
      get_order_by_id
        (update_order db oid (some [PutEntry.productName v])).2 oid =
        some ord2 ∧
      ord2.product_id = p.product_id ∧
      ord2.quantity = ord.quantity ∧
      ord2.customer_id = ord.customer_id := by
  have happ : applyPutEntries db ord [PutEntry.productName v] =
      (PutResult.updated,
        if p.product_id ≠ ord.product_id then
          { ord with product_id := p.product_id }
        else ord) := by
    simp only [applyPutEntries, hp]
  set d := (if p.product_id ≠ ord.product_id then
      { ord with product_id := p.product_id }
    else ord) with hdef
  have hdfields : d.order_id = ord.order_id ∧ d.product_id = p.product_id ∧
      d.quantity = ord.quantity ∧ d.customer_id = ord.customer_id := by
    by_cases hne : p.product_id ≠ ord.product_id
    · rw [hdef, if_pos hne]
      exact ⟨rfl, rfl, rfl, rfl⟩
    · rw [hdef, if_neg hne]
      push_neg at hne
      exact ⟨rfl, hne.symm, rfl, rfl⟩
  have hcond : (List.all [PutEntry.productName v]
      (fun e => putAllowedAttributes.contains (entryKey e))) = true := rfl
  have hupd : update_order db oid (some [PutEntry.productName v]) =
      (PutResult.updated,
        { db with orders :=
            db.orders.map (fun o => if o.order_id == oid then d else o) }) := by
    simp only [update_order, hord]
    rw [if_pos hcond, happ]
  refine ⟨d, hupd, rfl, ?_, hdfields.2.1, hdfields.2.2.1, hdfields.2.2.2⟩
  rw [hupd]
  simp only [get_order_by_id]
  exact find?_map_commit db.orders oid ord d hord hdfields.1

/-- Witness for the amended C3: updating the sample order with the
body consisting of product_name Widget succeeds with the promised
frame conditions. -/
theorem put_product_name_only_updates_product_witness :
    ∃ ord2,
      update_order sampleDB 1 (some [PutEntry.productName ("Widget")]) =
        (PutResult.updated,
          { sampleDB with orders :=
              sampleDB.orders.map (fun o => if o.order_id == 1 then ord2 else o) }) ∧
      putStatus PutResult.updated = 200 ∧
      get_order_by_id
        (update_order sampleDB 1 (some [PutEntry.productName ("Widget")])).2 1 =
        some ord2 ∧
      ord2.product_id = sampleProduct.product_id ∧
      ord2.quantity = sampleOrder.quantity ∧
      ord2.customer_id = sampleOrder.customer_id :=
  put_product_name_only_updates_product sampleDB 1 ("Widget")
    sampleOrder sampleProduct rfl rfl

/-- If every body entry is a product_name or quantity key and some
product_name entry resolves to no product, the update loop stops with
the product-not-found outcome before reaching the commit. -/
theorem applyPutEntries_unknown_product (db : DB) :
    ∀ (entries : List PutEntry) (draft : Order),
    (∀ e ∈ entries, (∃ w, e = PutEntry.productName w) ∨
      (∃ n, e = PutEntry.quantity n)) →
    (∃ v, PutEntry.productName v ∈ entries ∧
      productFilterByName db v = none) →
    (applyPutEntries db draft entries).1 = PutResult.productNotFound := by
  intro entries
  induction entries with
  | nil =>
    intro draft _ hex
    obtain ⟨v, hv, _⟩ := hex
    simp at hv
  | cons e rest ih =>
    intro draft hshape hex
    obtain ⟨v, hv, hnone⟩ := hex
    rcases hshape e (List.mem_cons_self e rest) with ⟨w, rfl⟩ | ⟨n, rfl⟩
    · simp only [applyPutEntries]
      cases hpf : productFilterByName db w with
      | none => rfl
      | some p =>
        have hvrest : PutEntry.productName v ∈ rest := by
          rcases List.mem_cons.mp hv with heq | h2
          · cases heq
            rw [hpf] at hnone
            simp at hnone
          · exact h2
        exact ih _ (fun e2 he2 => hshape e2 (List.mem_cons_of_mem _ he2))
          ⟨v, hvrest, hnone⟩
    · have hvrest : PutEntry.productName v ∈ rest := by
        rcases List.mem_cons.mp hv with heq | h2
        · exact absurd heq (by simp)
        · exact h2
      simp only [applyPutEntries]
      exact ih _ (fun e2 he2 => hshape e2 (List.mem_cons_of_mem _ he2))
        ⟨v, hvrest, hnone⟩

/-- Counterexample for C4: a PUT body whose product_name (Ghost)
matches no product but which also carries customer_name is answered
500 by the raising customer-name lookup — not with the 404 not-found
response the claim promises for every such body. -/
theorem put_unknown_product_name_cex :
    update_order sampleDB 1
        (some [PutEntry.customerName ("Ada"), PutEntry.productName ("Ghost")]) =
      (PutResult.internalError, sampleDB) ∧
    putStatus PutResult.internalError = 500 ∧
    (update_order sampleDB 1
        (some [PutEntry.customerName ("Ada"), PutEntry.productName ("Ghost")])).1 ≠
      PutResult.productNotFound :=
  ⟨rfl, rfl, by decide⟩

/-- C4 (amended): a PUT on an existing order whose body keys are only
product_name and quantity, with the submitted product_name matching no
product, is answered 404 product-not-found and nothing is committed:
the stored order is unchanged even when other whitelisted keys
(quantity) were also present. -/
theorem put_unknown_product_name_404 (db : DB) (oid : Int)
    (entries : List PutEntry)
    (hord : ∃ o ∈ db.orders, o.order_id = oid)
    (hshape : ∀ e ∈ entries, (∃ w, e = PutEntry.productName w) ∨
      (∃ n, e = PutEntry.quantity n))
    (hunknown : ∃ v, PutEntry.productName v ∈ entries ∧
      productFilterByName db v = none) :
    update_order db oid (some entries) = (PutResult.productNotFound, db) ∧
    putStatus PutResult.productNotFound = 404 := by
  obtain ⟨o, ho, hoid⟩ := hord
  have hsome : (get_order_by_id db oid).isSome := by
    rw [get_order_by_id, List.find?_isSome]
    exact ⟨o, ho, by simp [hoid]⟩
  obtain ⟨o2, ho2⟩ := Option.isSome_iff_exists.mp hsome
  have hall : (entries.all
      (fun e => putAllowedAttributes.contains (entryKey e))) = true := by
    rw [List.all_eq_true]
    intro e he
    rcases hshape e he with ⟨w, rfl⟩ | ⟨n, rfl⟩ <;> rfl
  simp only [update_order, ho2]
  rw [if_pos hall]
  have hfst := applyPutEntries_unknown_product db entries o2 hshape hunknown
  rcases happ : applyPutEntries db o2 entries with ⟨r, dr⟩
  rw [happ] at hfst
  obtain rfl : r = PutResult.productNotFound := hfst
  exact ⟨rfl, rfl⟩

/-- Witness for the amended C4: a body with quantity 9 and the unknown
product_name Ghost on the sample order is answered 404 and the
database is unchanged. -/
theorem put_unknown_product_name_404_witness :
    update_order sampleDB 1
        (some [PutEntry.quantity 9, PutEntry.productName ("Ghost")]) =
      (PutResult.productNotFound, sampleDB) ∧
    putStatus PutResult.productNotFound = 404 :=
  put_unknown_product_name_404 sampleDB 1 _
    ⟨sampleOrder, by decide, by decide⟩
    (by
      intro e he
      rcases List.mem_cons.mp he with rfl | he2
      · exact Or.inr ⟨9, rfl⟩
      rcases List.mem_cons.mp he2 with rfl | he3
      · exact Or.inl ⟨"Ghost", rfl⟩
      · simp at he3)
    ⟨"Ghost", by decide, rfl⟩

/-- C7: the number-of-products aggregate yields, for every customer
with at least one order, the entry pairing its identifier with its
order count; and every entry of the result arises from a customer with
a positive order count — customers with zero orders are excluded. -/
theorem customers_by_product_count_spec (db : DB) :
    (∀ c ∈ db.customers, 0 < joinOrderCount db c →
      (c.customer_id, joinOrderCount db c) ∈ get_customers_by_products db) ∧
    (∀ e ∈ get_customers_by_products db,
      ∃ c ∈ db.customers, e = (c.customer_id, joinOrderCount db c) ∧
        0 < joinOrderCount db c) := by
  constructor
  · intro c hc hpos
    rw [get_customers_by_products, List.mem_filterMap]
    refine ⟨c, hc, ?_⟩
    show (if joinOrderCount db c = 0 then none
      else some (c.customer_id, joinOrderCount db c)) = _
    rw [if_neg (Nat.pos_iff_ne_zero.mp hpos)]
  · intro e he
    rw [get_customers_by_products, List.mem_filterMap] at he
    obtain ⟨c, hc, hfc⟩ := he
    by_cases h0 : joinOrderCount db c = 0
    · simp [h0] at hfc
    · refine ⟨c, hc, ?_, Nat.pos_of_ne_zero h0⟩
      have : (if joinOrderCount db c = 0 then none
          else some (c.customer_id, joinOrderCount db c)) = some e := hfc
      rw [if_neg h0] at this
      exact (Option.some.inj this).symm

/-- Witness for C7: the sample customer has one order, and the
aggregate contains the corresponding entry. -/
theorem customers_by_product_count_spec_witness :
    (sampleCustomer.customer_id, joinOrderCount sampleDB sampleCustomer) ∈
      get_customers_by_products sampleDB :=
  (customers_by_product_count_spec sampleDB).1 sampleCustomer
    (by decide) (by decide)

/-- When every order of the list references an existing product, the
serialization succeeds and reproduces the orders field by field. -/
theorem serializeHistory_eq_some (db : DB) :
    ∀ l : List Order,
    (∀ o ∈ l, ∃ p ∈ db.products, p.product_id = o.product_id) →
    ∃ hs, serializeHistory db l = some hs ∧
      hs.map (fun h => (h.order_id, h.product_id, h.quantity, h.created_at)) =
        l.map (fun o => (o.order_id, o.product_id, o.quantity, o.created_at)) := by
  intro l
  induction l with
  | nil => exact fun _ => ⟨[], rfl, rfl⟩
  | cons o rest ih =>
    intro hfk
    obtain ⟨p, hp, hpid⟩ := hfk o (List.mem_cons_self o rest)
    have hsome : (db.products.find?
        (fun q => q.product_id == o.product_id)).isSome := by
      rw [List.find?_isSome]
      exact ⟨p, hp, by simp [hpid]⟩
    obtain ⟨p2, hp2⟩ := Option.isSome_iff_exists.mp hsome
    obtain ⟨hs, hhs, hmap⟩ := ih (fun o2 ho2 => hfk o2 (List.mem_cons_of_mem _ ho2))
    refine ⟨({ order_id := o.order_id
               product_id := o.product_id
               quantity := o.quantity
               created_at := o.created_at
               product_name := p2.name } : HistoryEntry) :: hs, ?_, ?_⟩
    · simp only [serializeHistory]
      rw [hp2, hhs]
      rfl
    · simp only [List.map_cons, hmap]

/-- C8: purchase history answers the customer-not-found 404 exactly
when no customer carries the requested identifier; for an existing
customer — provided every order references an existing product, as the
foreign key guarantees — it answers 200 with exactly the orders of
that customer (the empty list when there are none). -/
theorem purchase_history_spec (db : DB) (cid : Int)
    (hfk : ∀ o ∈ db.orders, ∃ p ∈ db.products, p.product_id = o.product_id) :
    (get_purchase_history db cid = HistResult.customerNotFound ↔
      ∀ c ∈ db.customers, c.customer_id ≠ cid) ∧
    ((∃ c ∈ db.customers, c.customer_id = cid) →
      ∃ hs, get_purchase_history db cid = HistResult.ok hs ∧
        hs.map (fun h => (h.order_id, h.product_id, h.quantity, h.created_at)) =
          (db.orders.filter (fun o => o.customer_id == cid)).map
            (fun o => (o.order_id, o.product_id, o.quantity, o.created_at))) := by
  obtain ⟨hs, hhs, hmap⟩ := serializeHistory_eq_some db
    (db.orders.filter (fun o => o.customer_id == cid))
    (fun o ho => hfk o (List.mem_of_mem_filter ho))
  cases hfindc : db.customers.find? (fun c => c.customer_id == cid) with
  | none =>
    have hnone : ∀ c ∈ db.customers, c.customer_id ≠ cid := by
      rw [List.find?_eq_none] at hfindc
      intro c hc
      simpa using hfindc c hc
    constructor
    · constructor
      · intro _
        exact hnone
      · intro _
        simp only [get_purchase_history, hfindc]
    · rintro ⟨c, hc, rfl⟩
      exact absurd rfl (hnone c hc)
  | some c0 =>
    have hok : get_purchase_history db cid = HistResult.ok hs := by
      simp only [get_purchase_history, hfindc, hhs]
    constructor
    · rw [hok]
      constructor
      · intro h
        simp at h
      · intro hno
        have hc0 := List.mem_of_find?_eq_some hfindc
        exact absurd (by simpa using List.find?_some hfindc) (hno c0 hc0)
    · intro _
      exact ⟨hs, hok, hmap⟩

/-- Witness for C8: customer 1 exists in the sample database and the
purchase history returns exactly its single order. -/
theorem purchase_history_spec_witness :
    ∃ hs, get_purchase_history sampleDB 1 = HistResult.ok hs ∧
      hs.map (fun h => (h.order_id, h.product_id, h.quantity, h.created_at)) =
        (sampleDB.orders.filter (fun o => o.customer_id == 1)).map
          (fun o => (o.order_id, o.product_id, o.quantity, o.created_at)) :=
  (purchase_history_spec sampleDB 1 (by decide)).2
    ⟨sampleCustomer, by decide, by decide⟩
